import Mathlib

/-
Shallow embedding of the dam2stix repository (src/main.py, src/objects.py).

Real numbers of the Python program are modelled as rationals (ℚ); fallible
Python code (raise / uncaught exceptions) is modelled with Except/Option.
External collaborators (the leveelogic geometry engine, the shapely polygon
library) are modelled as opaque data supplied to the functions that consume
them, following the repository's own use of their query results.
-/

namespace Dam2Stix

/-! ## Constants (objects.py lines 22-31) -/

/-- objects.py line 22: `X_UNDEFINED = -9999`, the sentinel for an absent
characteristic point. -/
def X_UNDEFINED : ℚ := -9999

/-- objects.py line 29: `Z_OFFSET_BUITENKRUIN = 0.0`, the elevation drop applied
at the outer crest (the spec's `crest_offset`). -/
def Z_OFFSET_BUITENKRUIN : ℚ := 0

/-- objects.py line 31: `Z_PHREATIC_OFFSET_MAAIVELD = 0.1`, the minimum clearance
kept below the ground surface (the spec's `ground_offset`). -/
def Z_PHREATIC_OFFSET_MAAIVELD : ℚ := 1/10

/-! ## The interpolator `z_at` (objects.py lines 34-42) -/

/-- objects.py lines 34-42: walk consecutive sample pairs in order; on the first
pair `(p1, p2)` with `p1.x ≤ x ≤ p2.x` return the linear interpolation, else
`None` after the loop. -/
def z_at (x : ℚ) : List (ℚ × ℚ) → Option ℚ
  | p1 :: p2 :: rest =>
    if p1.1 ≤ x ∧ x ≤ p2.1 then
      some (p1.2 + (x - p1.1) / (p2.1 - p1.1) * (p2.2 - p1.2))
    else
      z_at x (p2 :: rest)
  | _ => none

/-- The consecutive sample pairs `(points[i-1], points[i])` that the loop in
`z_at` iterates over. -/
def segments (pts : List (ℚ × ℚ)) : List ((ℚ × ℚ) × (ℚ × ℚ)) :=
  pts.zip pts.tail

/-- The interpolation expression of objects.py line 40 over one segment. -/
def interp (x : ℚ) (s : (ℚ × ℚ) × (ℚ × ℚ)) : ℚ :=
  s.1.2 + (x - s.1.1) / (s.2.1 - s.1.1) * (s.2.2 - s.1.2)

/-- The first segment whose inclusive bounds contain `x` — the segment whose
interpolation `z_at` returns (objects.py line 39). -/
def bracketSegment (x : ℚ) (pts : List (ℚ × ℚ)) : Option ((ℚ × ℚ) × (ℚ × ℚ)) :=
  (segments pts).find? (fun s => decide (s.1.1 ≤ x ∧ x ≤ s.2.1))

/-! ## A model of Python's `sorted(list(set(...)))` (objects.py line 699) -/

/-- Insert a value into an ascending list, keeping it ascending. -/
def insertSorted (a : ℚ) : List ℚ → List ℚ
  | [] => [a]
  | b :: l => if a ≤ b then a :: b :: l else b :: insertSorted a l

/-- Sort a list of rationals ascending (model of Python's `sorted`). -/
def sortAsc (l : List ℚ) : List ℚ :=
  l.foldr insertSorted []

/-- Python's `sorted(list(set(l)))`: de-duplicate, then sort ascending. -/
def sortedDedup (l : List ℚ) : List ℚ :=
  sortAsc l.dedup

/-! ## Data model (objects.py lines 78-192)

The pydantic records, restricted to the fields the program reads after load
time.  Floats become ℚ. -/

/-- objects.py lines 78-83: a soil material. -/
structure Soil where
  name : String
  yd : ℚ
  ys : ℚ
  c : ℚ
  phi : ℚ

/-- objects.py lines 86-90: one scenario ("combination"). -/
structure Combination where
  soilprofile_id_crest : String
  soilprofile_id_toe : String
  surfaceline_id : String
  soilgeometry2D_name : String

/-- objects.py lines 93-95. -/
structure SlopeLayer where
  surfaceline_id : String
  slope_layer_thickness : ℚ

/-- objects.py lines 98-101. -/
structure SoilProfileLayer where
  top : ℚ
  bottom : ℚ
  soil_name : String

/-- objects.py lines 104-106 (the `sort` method is a load-time concern). -/
structure SoilProfile where
  id : String
  layers : List SoilProfileLayer

/-- objects.py lines 112-115. -/
structure PolderPeil where
  location_id : String
  max_peil : ℚ
  min_peil : ℚ

/-- objects.py lines 118-120. -/
structure Stijghoogte where
  location_id : String
  hoogte : ℚ

/-- objects.py lines 123-126. -/
structure Toetspeil where
  location_id : String
  peil : ℚ
  verschil : ℚ

/-- objects.py lines 129-132. -/
structure SurfaceLinePoint where
  x : ℚ
  y : ℚ
  z : ℚ

/-- objects.py lines 153-163: a ground polyline with its characteristic
x-positions; optional ones hold `X_UNDEFINED` when absent. -/
structure SurfaceLine where
  id : String
  points : List SurfaceLinePoint
  x_binnenkruin : ℚ
  x_buitenkruin : ℚ
  x_binnenteen : ℚ
  x_buitenteen : ℚ
  x_insteek_binnenberm : ℚ
  x_insteek_sloot_dijkzijde : ℚ
  x_insteek_sloot_polderzijde : ℚ

/-- objects.py lines 178-180. -/
structure Location where
  id : String
  surfaceline_id : String

/-- objects.py lines 183-192: the in-memory record store. -/
structure DAMInput where
  combinations : List Combination
  slopelayers : List SlopeLayer
  soilprofiles : List SoilProfile
  surfacelines : List SurfaceLine
  polderpeilen : List PolderPeil
  stijghoogtes : List Stijghoogte
  toetspeilen : List Toetspeil
  locations : List Location
  soils : List Soil

/-! ## Record-store lookups (objects.py lines 427-479)

Each lookup scans its list for the first id match and raises a `ValueError`
with a Dutch message when nothing matches; modelled with `Except String`. -/

/-- Error message of objects.py line 432 as a function of the queried id. -/
def soilprofile_error_msg (id : String) : String :=
  "Kan grondopbouw met id '" ++ id ++ "' niet vinden"

/-- objects.py lines 427-432. -/
def get_soilprofile (d : DAMInput) (id : String) : Except String SoilProfile :=
  match d.soilprofiles.find? (fun sp => sp.id == id) with
  | some sp => Except.ok sp
  | none => Except.error (soilprofile_error_msg id)

/-- Error message of objects.py line 439. -/
def surfaceline_error_msg (id : String) : String :=
  "Kan dwarsprofiel met id '" ++ id ++ "' niet vinden"

/-- objects.py lines 434-439. -/
def get_surfaceline (d : DAMInput) (id : String) : Except String SurfaceLine :=
  match d.surfacelines.find? (fun sl => sl.id == id) with
  | some sl => Except.ok sl
  | none => Except.error (surfaceline_error_msg id)

/-- Error message of objects.py line 446.  The Python source interpolates
`{id}` there, but the name `id` in that scope is the Python *builtin function*
`id`, not the `surfaceline_id` parameter of `get_slope_layer`; the message
therefore renders the builtin's repr and never the queried id. -/
def slopelayer_error_msg : String :=
  "Kan slopelayer met surfaceline_id '<built-in function id>' niet vinden"

/-- objects.py lines 441-446. -/
def get_slope_layer (d : DAMInput) (surfaceline_id : String) : Except String SlopeLayer :=
  match d.slopelayers.find? (fun sl => sl.surfaceline_id == surfaceline_id) with
  | some sl => Except.ok sl
  | none => Except.error slopelayer_error_msg

/-- Error message of objects.py line 453. -/
def polderpeil_error_msg (location_id : String) : String :=
  "Kan polderpeilen voor location_id '" ++ location_id ++ "' niet vinden"

/-- objects.py lines 448-454. -/
def get_polderpeilen (d : DAMInput) (location_id : String) : Except String PolderPeil :=
  match d.polderpeilen.find? (fun pp => pp.location_id == location_id) with
  | some pp => Except.ok pp
  | none => Except.error (polderpeil_error_msg location_id)

/-- Error message of objects.py line 462. -/
def location_error_msg (surfaceline_id : String) : String :=
  "Kan location voor surfaceline_id '" ++ surfaceline_id ++ "' niet vinden"

/-- objects.py lines 456-463. -/
def get_location (d : DAMInput) (surfaceline_id : String) : Except String Location :=
  match d.locations.find? (fun l => l.surfaceline_id == surfaceline_id) with
  | some l => Except.ok l
  | none => Except.error (location_error_msg surfaceline_id)

/-- Error message of objects.py line 470. -/
def toetspeil_error_msg (location_id : String) : String :=
  "Kan toetspeilen voor location_id '" ++ location_id ++ "' niet vinden"

/-- objects.py lines 465-471. -/
def get_toetspeilen (d : DAMInput) (location_id : String) : Except String Toetspeil :=
  match d.toetspeilen.find? (fun t => t.location_id == location_id) with
  | some t => Except.ok t
  | none => Except.error (toetspeil_error_msg location_id)

/-- Error message of objects.py line 478. -/
def stijghoogte_error_msg (location_id : String) : String :=
  "Kan stijghoogte voor location_id '" ++ location_id ++ "' niet vinden"

/-- objects.py lines 473-479. -/
def get_stijghoogte (d : DAMInput) (location_id : String) : Except String Stijghoogte :=
  match d.stijghoogtes.find? (fun s => s.location_id == location_id) with
  | some s => Except.ok s
  | none => Except.error (stijghoogte_error_msg location_id)

/-! ## Phreatic-line builder (objects.py lines 635-726)

The external leveelogic engine supplies, per scenario, its bounding x-range,
its ground-surface polyline, its `z_at` elevation query and the result of the
`get_surface_intersections` call made at line 639; these engine answers are
the `EngineData` inputs of the builder. -/

/-- The engine-supplied data the builder reads (`levee.left`, `levee.right`,
`levee.surface`, `levee.z_at`, and the intersections returned for the
`[p1, (x_buitenkruin, toetspeil)]` query of objects.py lines 639-641). -/
structure EngineData where
  left : ℚ
  right : ℚ
  surface : List (ℚ × ℚ)
  zAt : ℚ → ℚ
  intersections : List (ℚ × ℚ)

/-- Everything the builder of objects.py lines 635-726 reads: the engine
answers plus the characteristic points and water levels of the scenario. -/
structure BuilderInput where
  eng : EngineData
  x_buitenkruin : ℚ
  x_binnenkruin : ℚ
  x_binnenteen : ℚ
  x_insteek_binnenberm : ℚ
  x_insteek_sloot_dijkzijde : ℚ
  peil : ℚ
  verschil : ℚ
  min_peil : ℚ

/-- objects.py line 636: `p1 = [levee.left, toetspeil.peil]`. -/
def p1_point (b : BuilderInput) : ℚ × ℚ :=
  (b.eng.left, b.peil)

/-- objects.py line 646: `p2 = [intersections[0][0], toetspeil.peil]`. -/
def p2_point (b : BuilderInput) (i0 : ℚ × ℚ) : ℚ × ℚ :=
  (i0.1, b.peil)

/-- objects.py line 649: `p3 = [x_buitenkruin, p2[1] - Z_OFFSET_BUITENKRUIN]`. -/
def p3_point (b : BuilderInput) (p2z : ℚ) : ℚ × ℚ :=
  (b.x_buitenkruin, p2z - Z_OFFSET_BUITENKRUIN)

/-- objects.py line 652: `p4 = [x_binnenkruin, p2[1] - toetspeil.verschil]`. -/
def p4_point (b : BuilderInput) (p2z : ℚ) : ℚ × ℚ :=
  (b.x_binnenkruin, p2z - b.verschil)

/-- The `ValueError` message raised at objects.py lines 642-645 when no
surface crossing is found for P2. -/
def p2_error_msg : String :=
  "Kan geen snijpunt op het toetspeil met de dijk vinden tussen de linker limiet en de buitenkruin van dit profiel"

/-- The `ValueError` message raised at objects.py lines 653-656 when P3 lies
below P4. -/
def crest_error_msg : String :=
  "De z coordinaat van punt 3 is lager dan die van punt 4, dit kan gebeuren als `Z_OFFSET_BUITENKRUIN` groter is dan `verschil` in de DAM invoer"

/-- objects.py lines 635-685: build the seed polyline `pl_points` from
P1..P8, discarding the unset optional points, raising when the engine reports
no P2 intersection or when P3 lies below P4. -/
def seed_points (b : BuilderInput) : Except String (List (ℚ × ℚ)) :=
  match b.eng.intersections.head? with
  | none => Except.error p2_error_msg
  | some i0 =>
    let p1 := p1_point b
    let p2 := p2_point b i0
    let p3 := p3_point b p2.2
    let p4 := p4_point b p2.2
    if p3.2 < p4.2 then
      Except.error crest_error_msg
    else
      -- lines 658-666: P5 only when the inner berm edge is defined
      let p5 : List (ℚ × ℚ) :=
        if b.x_insteek_binnenberm = X_UNDEFINED then []
        else [(b.x_insteek_binnenberm,
               b.eng.zAt b.x_insteek_binnenberm - Z_PHREATIC_OFFSET_MAAIVELD)]
      -- lines 668-672: P6 at the inner toe
      let p6 : ℚ × ℚ :=
        (b.x_binnenteen, b.eng.zAt b.x_binnenteen - Z_PHREATIC_OFFSET_MAAIVELD)
      -- lines 674-685: P7/P8 depend on whether a ditch is present
      let p7p8 : List (ℚ × ℚ) :=
        if b.x_insteek_sloot_dijkzijde ≠ X_UNDEFINED then
          [(b.x_insteek_sloot_dijkzijde, b.min_peil), (b.eng.right, b.min_peil)]
        else
          [(b.eng.right, b.eng.zAt b.eng.right - Z_PHREATIC_OFFSET_MAAIVELD)]
      Except.ok ([p1, p2, p3, p4] ++ p5 ++ [p6] ++ p7p8)

/-- objects.py lines 687-690: `xl`, the left resampling limit (the spec's
`inner_limit`). -/
def xl (b : BuilderInput) : ℚ :=
  if b.x_insteek_binnenberm ≠ X_UNDEFINED then b.x_insteek_binnenberm
  else b.x_binnenkruin

/-- objects.py lines 692-695: `xr`, the right resampling limit (the spec's
`outer_limit`). -/
def xr (b : BuilderInput) : ℚ :=
  if b.x_insteek_sloot_dijkzijde ≠ X_UNDEFINED then b.x_insteek_sloot_dijkzijde
  else b.eng.right

/-- objects.py lines 697-699: the sorted de-duplicated union of the
ground-surface vertex x's and the seed-point x's inside `(xl, xr]`. -/
def resample_xs (b : BuilderInput) (pl : List (ℚ × ℚ)) : List ℚ :=
  sortedDedup
    ((b.eng.surface.filter (fun p => decide (xl b < p.1 ∧ p.1 ≤ xr b))).map Prod.fst
      ++ (pl.filter (fun p => decide (xl b < p.1 ∧ p.1 ≤ xr b))).map Prod.fst)

/-- objects.py lines 708-714, one loop iteration: look up ground elevation
`z_mv` and seed elevation `z_pl` at `x` and clamp `z_pl` to stay
`Z_PHREATIC_OFFSET_MAAIVELD` below the ground.  When `z_at` returns no value
the Python comparison `z_pl > ...` raises an uncaught `TypeError`. -/
def resample_point (b : BuilderInput) (pl : List (ℚ × ℚ)) (x : ℚ) :
    Except String (ℚ × ℚ) :=
  let z_mv := b.eng.zAt x
  match z_at x pl with
  | none => Except.error "TypeError: NoneType comparison"
  | some z_pl =>
    if z_pl > z_mv - Z_PHREATIC_OFFSET_MAAIVELD then
      Except.ok (x, z_mv - Z_PHREATIC_OFFSET_MAAIVELD)
    else
      Except.ok (x, z_pl)

/-- The `for x in xs` loop of objects.py lines 708-714: append one resampled
point per x to the accumulator. -/
def resample_fold (b : BuilderInput) (pl : List (ℚ × ℚ)) (acc : List (ℚ × ℚ)) :
    List ℚ → Except String (List (ℚ × ℚ))
  | [] => Except.ok acc
  | x :: rest =>
    match resample_point b pl x with
    | Except.error e => Except.error e
    | Except.ok p => resample_fold b pl (acc ++ [p]) rest

/-- objects.py lines 635-718: the full control list handed to the clamping
pass (`final_pl_points` just before line 720). -/
def build_final_pl (b : BuilderInput) : Except String (List (ℚ × ℚ)) :=
  match seed_points b with
  | Except.error e => Except.error e
  | Except.ok pl =>
    -- lines 701-705: first the seed points up to and including x_binnenkruin
    match resample_fold b pl
        (pl.filter (fun p => decide (p.1 ≤ b.x_binnenkruin)))
        (resample_xs b pl) with
    | Except.error e => Except.error e
    | Except.ok mid =>
      -- lines 716-718: when xr is not the right bound, re-append the old
      -- seed points beyond xr
      if xr b ≠ b.eng.right then
        Except.ok (mid ++ pl.filter (fun p => decide (xr b < p.1)))
      else
        Except.ok mid

/-- Inner loop of the clamping pass of objects.py lines 720-723: each point is
compared against the already-clamped predecessor. -/
def clamp_go (prev : ℚ × ℚ) : List (ℚ × ℚ) → List (ℚ × ℚ)
  | [] => []
  | q :: rest =>
    let q' := if prev.2 < q.2 then (q.1, prev.2) else q
    q' :: clamp_go q' rest

/-- objects.py lines 720-723: the in-place monotonicity pass over
`final_pl_points`, as a pure function. -/
def clamp_descending : List (ℚ × ℚ) → List (ℚ × ℚ)
  | [] => []
  | p :: rest => p :: clamp_go p rest

/-- The phreatic control-point list the builder hands to
`levee.add_phreatic_line` at objects.py line 726: the final control list after
the clamping pass. -/
def phreatic_line (b : BuilderInput) : Except String (List (ℚ × ℚ)) :=
  match build_final_pl b with
  | Except.error e => Except.error e
  | Except.ok l => Except.ok (clamp_descending l)

/-! ## Spec-side description of the final control list (spec §4.3 step 2) -/

/-- Modelled from the spec (§4.3 step 2): one resampled point for each x, the
elevation being `min(seed elevation, ground elevation - ground_offset)`;
undefined when the seed polyline has no value at some x. -/
def spec_resampled (b : BuilderInput) (pl : List (ℚ × ℚ)) :
    List ℚ → Option (List (ℚ × ℚ))
  | [] => some []
  | x :: rest =>
    match z_at x pl, spec_resampled b pl rest with
    | some zpl, some tail =>
      some ((x, min zpl (b.eng.zAt x - Z_PHREATIC_OFFSET_MAAIVELD)) :: tail)
    | _, _ => none

/-- Modelled from the spec (§4.3 step 2): "Final control list = [seed points
with x ≤ x_inner_crest] ++ [resampled points for x in (inner_limit,
outer_limit]] ++ (if outer_limit ≠ right_bound) [seed points with x >
outer_limit]", with `inner_limit = xl` and `outer_limit = xr`. -/
def spec_control_list (b : BuilderInput) (pl : List (ℚ × ℚ)) :
    Option (List (ℚ × ℚ)) :=
  match spec_resampled b pl (resample_xs b pl) with
  | none => none
  | some mid =>
    some (pl.filter (fun p => decide (p.1 ≤ b.x_binnenkruin))
      ++ mid
      ++ (if xr b ≠ b.eng.right then pl.filter (fun p => decide (xr b < p.1))
          else []))

/-! ## Batch driver (objects.py lines 481-787)

`generate_stix_files` iterates the combinations.  Only the id lookups of
lines 501-517 sit inside a `try/except` (the error is logged and the loop
body continues); every later exception — an unbound/stale variable, or the
`ValueError`s raised by the builder — propagates out of the function and ends
the whole batch.  Observable behaviour is modelled as a list of events
(`logging.error` calls and produced stix files) plus an optional uncaught
exception. -/

/-- Observable batch events: a `logging.error` call (scenario name, message)
or a produced stix file (objects.py lines 514-517 and 784). -/
inductive Event where
  | logged : String → String → Event
  | produced : String → Event
deriving DecidableEq

/-- The loop-local Python variables bound by the lookup block of objects.py
lines 502-513.  They survive across loop iterations; `none` models a variable
that has never been bound. -/
structure BState where
  crest_soilprofile : Option SoilProfile
  polder_soilprofile : Option SoilProfile
  surfaceline : Option SurfaceLine
  slope_layer : Option SlopeLayer
  location : Option Location
  polderpeilen : Option PolderPeil
  toetspeil : Option Toetspeil
  stijghoogte : Option Stijghoogte

/-- The state at the start of the batch: no loop variable bound yet. -/
def emptyBState : BState :=
  ⟨none, none, none, none, none, none, none, none⟩

/-- objects.py lines 502-513: the eight lookups in source order.  Each
successful lookup rebinds its variable; the first failure stops the block,
leaving all later variables at their previous values. -/
def do_lookups (d : DAMInput) (c : Combination) (st : BState) :
    BState × Option String :=
  match get_soilprofile d c.soilprofile_id_crest with
  | Except.error e => (st, some e)
  | Except.ok v =>
    let st := { st with crest_soilprofile := some v }
    match get_soilprofile d c.soilprofile_id_toe with
    | Except.error e => (st, some e)
    | Except.ok v =>
      let st := { st with polder_soilprofile := some v }
      match get_surfaceline d c.surfaceline_id with
      | Except.error e => (st, some e)
      | Except.ok sl =>
        let st := { st with surfaceline := some sl }
        match get_slope_layer d c.surfaceline_id with
        | Except.error e => (st, some e)
        | Except.ok v =>
          let st := { st with slope_layer := some v }
          match get_location d sl.id with
          | Except.error e => (st, some e)
          | Except.ok loc =>
            let st := { st with location := some loc }
            match get_polderpeilen d loc.id with
            | Except.error e => (st, some e)
            | Except.ok v =>
              let st := { st with polderpeilen := some v }
              match get_toetspeilen d loc.id with
              | Except.error e => (st, some e)
              | Except.ok v =>
                let st := { st with toetspeil := some v }
                match get_stijghoogte d loc.id with
                | Except.error e => (st, some e)
                | Except.ok v =>
                  ({ st with stijghoogte := some v }, none)

/-- The variable bindings the post-lookup scenario body reads (`location` is
only used inside the lookup block itself). -/
structure BodyBindings where
  crest_soilprofile : SoilProfile
  polder_soilprofile : SoilProfile
  surfaceline : SurfaceLine
  slope_layer : SlopeLayer
  polderpeilen : PolderPeil
  toetspeil : Toetspeil
  stijghoogte : Stijghoogte

/-- Assemble the builder's inputs from the scenario bindings and the engine
answers, as read at objects.py lines 635-698. -/
def mkBuilderInput (bb : BodyBindings) (e : EngineData) : BuilderInput :=
  ⟨e, bb.surfaceline.x_buitenkruin, bb.surfaceline.x_binnenkruin,
   bb.surfaceline.x_binnenteen, bb.surfaceline.x_insteek_binnenberm,
   bb.surfaceline.x_insteek_sloot_dijkzijde,
   bb.toetspeil.peil, bb.toetspeil.verschil, bb.polderpeilen.min_peil⟩

/-- objects.py lines 520-784, the body after the lookup block: it dereferences
the loop variables (a never-bound variable raises an uncaught `NameError`),
runs the phreatic-line builder (whose `ValueError`s are uncaught), and on
success writes the stix file for the scenario. -/
def scenario_body (engine : BodyBindings → EngineData) (name : String)
    (st : BState) : List Event × Option String :=
  match st.crest_soilprofile, st.polder_soilprofile, st.surfaceline,
      st.slope_layer, st.polderpeilen, st.toetspeil, st.stijghoogte with
  | some cp, some pp, some sl, some slay, some peilen, some tp, some sh =>
    let bb : BodyBindings := ⟨cp, pp, sl, slay, peilen, tp, sh⟩
    match build_final_pl (mkBuilderInput bb (engine bb)) with
    | Except.error e => ([], some e)
    | Except.ok _ => ([Event.produced name], none)
  | _, _, _, _, _, _, _ => ([], some "NameError")

/-- The message passed to `logging.error` at objects.py lines 515-517. -/
def lookup_log_msg (name err : String) : String :=
  "Fout bij het afhandelen van '" ++ name ++ "'; '" ++ err ++ "'"

/-- One iteration of the `for combination in ...` loop of objects.py line 493:
the guarded lookup block, then the unguarded body. -/
def batchStep (d : DAMInput) (engine : BodyBindings → EngineData)
    (st : BState) (c : Combination) : BState × List Event × Option String :=
  let lookups := do_lookups d c st
  let levents : List Event :=
    match lookups.2 with
    | some e =>
      [Event.logged c.soilgeometry2D_name (lookup_log_msg c.soilgeometry2D_name e)]
    | none => []
  let body := scenario_body engine c.soilgeometry2D_name lookups.1
  (lookups.1, levents ++ body.1, body.2)

/-- The scenario loop of `generate_stix_files`: run the scenarios in order,
threading the loop variables; an uncaught exception ends the whole batch. -/
def runBatch (d : DAMInput) (engine : BodyBindings → EngineData) :
    List Combination → BState → List Event × Option String
  | [], _ => ([], none)
  | c :: rest, st =>
    let step := batchStep d engine st c
    match step.2.2 with
    | some f => (step.2.1, some f)
    | none =>
      let tail := runBatch d engine rest step.1
      (step.2.1 ++ tail.1, tail.2)

/-! ## Area accountant (objects.py lines 728-772)

The polygons come from the external engine and the boolean operations from
shapely; both are abstracted as an operations record.  `area_diff_le` is the
polygon-library fact the accounting relies on: a set-difference never grows
the area. -/

/-- The generic polygon interface consumed by the area accountant, together
with the library law that differencing cannot increase area. -/
structure PolygonOps (P : Type) where
  area : P → ℚ
  intersects : P → P → Bool
  difference : P → P → P
  area_diff_le : ∀ p q : P, area (difference p q) ≤ area p

/-- The three subtraction masks built at objects.py lines 731-757: everything
left of `x_buitenteen`, right of `x_binnenteen`, and below `min_peil`. -/
structure Masks (P : Type) where
  left_subtract : P
  right_subtract : P
  bottom_subtract : P

/-- One engine soil polygon with its soil code. -/
structure SoilPolygonRec (P : Type) where
  soilcode : String
  poly : P

/-- objects.py lines 763-770: clip a working copy of the polygon against the
three masks, each applied only when it intersects the current copy. -/
def limit_polygon {P : Type} (ops : PolygonOps P) (m : Masks P) (pg0 : P) : P :=
  let pg1 := if ops.intersects pg0 m.left_subtract then
      ops.difference pg0 m.left_subtract else pg0
  let pg2 := if ops.intersects pg1 m.right_subtract then
      ops.difference pg1 m.right_subtract else pg1
  if ops.intersects pg2 m.bottom_subtract then
    ops.difference pg2 m.bottom_subtract else pg2

/-- objects.py lines 728-772: starting from zero-valued totals, accumulate per
soil code the raw polygon area and the footprint-limited area. -/
def accumulate_areas {P : Type} (ops : PolygonOps P) (m : Masks P)
    (polys : List (SoilPolygonRec P)) : (String → ℚ) × (String → ℚ) :=
  polys.foldl
    (fun acc spg =>
      (Function.update acc.1 spg.soilcode (acc.1 spg.soilcode + ops.area spg.poly),
       Function.update acc.2 spg.soilcode
         (acc.2 spg.soilcode + ops.area (limit_polygon ops m spg.poly))))
    (fun _ => 0, fun _ => 0)

deriving instance DecidableEq for Soil
deriving instance DecidableEq for Combination
deriving instance DecidableEq for SlopeLayer
deriving instance DecidableEq for SoilProfileLayer
deriving instance DecidableEq for SoilProfile
deriving instance DecidableEq for PolderPeil
deriving instance DecidableEq for Stijghoogte
deriving instance DecidableEq for Toetspeil
deriving instance DecidableEq for SurfaceLinePoint
deriving instance DecidableEq for SurfaceLine
deriving instance DecidableEq for Location
deriving instance DecidableEq for DAMInput
deriving instance DecidableEq for BState

/-! ## Concrete example inputs used by the witnesses and counterexample -/

/-- Engine answers for a small example cross-section: bounds 0..10, flat
ground at elevation 5, one surface intersection for the P2 query. -/
def engExample : EngineData :=
  ⟨0, 10, [], fun _ => 5, [(1, 1)]⟩

/-- A small example builder input: crest at x=2/x=4, inner toe at x=6, no
berm, no ditch, design level 1, head loss 1/2, polder minimum 0. -/
def bExample : BuilderInput :=
  ⟨engExample, 2, 4, 6, X_UNDEFINED, X_UNDEFINED, 1, 1/2, 0⟩

/-- The seed polyline of `bExample`. -/
def plExample : List (ℚ × ℚ) :=
  [(0, 1), (1, 1), (2, 1), (4, 1/2), (6, 49/10), (10, 49/10)]

/-- The control list of `bExample` before the clamping pass. -/
def finalExample : List (ℚ × ℚ) :=
  [(0, 1), (1, 1), (2, 1), (4, 1/2), (6, 49/10), (10, 49/10)]

/-- The clamped phreatic line of `bExample`. -/
def clampedExample : List (ℚ × ℚ) :=
  [(0, 1), (1, 1), (2, 1), (4, 1/2), (6, 1/2), (10, 1/2)]

/-- Example surface line with characteristic points matching `bExample`. -/
def slExample : SurfaceLine :=
  ⟨"SL1", [], 4, 2, 6, 0, X_UNDEFINED, X_UNDEFINED, X_UNDEFINED⟩

/-- Example soil profile. -/
def spExample : SoilProfile :=
  ⟨"SP1", [⟨0, -5, "Klei"⟩]⟩

/-- A record store in which all the ids of `combElem1`/`combElem2` resolve.
Its toetspeil carries `verschil = -1`, so the P3/P4 check of objects.py lines
653-656 fails for every scenario that reaches the builder. -/
def dStoreExample : DAMInput :=
  ⟨[], [⟨"SL1", 0⟩], [spExample], [slExample], [⟨"L1", 1, 0⟩], [⟨"L1", 1⟩],
   [⟨"L1", 1, -1⟩], [⟨"L1", "SL1"⟩], [⟨"Klei", 18, 18, 5, 25⟩]⟩

/-- An engine model for the batch examples. -/
def engineExample : BodyBindings → EngineData :=
  fun _ => engExample

/-- First example scenario. -/
def combElem1 : Combination :=
  ⟨"SP1", "SP1", "SL1", "s1"⟩

/-- Second example scenario; never reached in the counterexample run. -/
def combElem2 : Combination :=
  ⟨"SP1", "SP1", "SL1", "s2"⟩

/-- A scenario whose ids resolve in no store. -/
def combBad : Combination :=
  ⟨"NOPE", "NOPE", "NOPE", "bad"⟩

/-- An empty record store. -/
def dEmpty : DAMInput :=
  ⟨[], [], [], [], [], [], [], [], []⟩

/-- The loop state after the successful lookups of `combElem1` against
`dStoreExample`. -/
def stExample : BState :=
  ⟨some spExample, some spExample, some slExample, some ⟨"SL1", 0⟩,
   some ⟨"L1", "SL1"⟩, some ⟨"L1", 1, 0⟩, some ⟨"L1", 1, -1⟩, some ⟨"L1", 1⟩⟩

/-! ## Helper lemmas -/

/-- The clamp loop yields a non-increasing list whose head never exceeds the
elevation of the previous (already clamped) point. -/
theorem clamp_go_chain (prev : ℚ × ℚ) (l : List (ℚ × ℚ)) :
    List.Chain' (fun p q => q.2 ≤ p.2) (clamp_go prev l) ∧
      ∀ a ∈ (clamp_go prev l).head?, a.2 ≤ prev.2 := by
  induction l generalizing prev with
  | nil =>
    refine ⟨by simp [clamp_go], ?_⟩
    intro a ha
    simp [clamp_go] at ha
  | cons q rest ih =>
    have key : (if prev.2 < q.2 then (q.1, prev.2) else q).2 ≤ prev.2 := by
      by_cases h : prev.2 < q.2
      · simp [h]
      · simp [h]
        exact le_of_not_lt h
    refine ⟨?_, ?_⟩
    · simp only [clamp_go]
      rw [List.chain'_cons']
      exact ⟨(ih _).2, (ih _).1⟩
    · intro a ha
      simp only [clamp_go, List.head?_cons, Option.mem_def, Option.some.injEq] at ha
      rw [← ha]
      exact key

/-- The function `z_at` returns exactly the interpolation over the first bracketing
segment, when one exists. -/
theorem z_at_eq_bracket (x : ℚ) (pts : List (ℚ × ℚ)) :
    z_at x pts = (bracketSegment x pts).map (interp x) := by
  induction pts with
  | nil => simp [z_at, bracketSegment, segments]
  | cons p1 tl ih =>
    cases tl with
    | nil => simp [z_at, bracketSegment, segments]
    | cons p2 rest =>
      have hseg : segments (p1 :: p2 :: rest) = (p1, p2) :: segments (p2 :: rest) := rfl
      by_cases h : p1.1 ≤ x ∧ x ≤ p2.1
      · simp [z_at, h, bracketSegment, hseg, List.find?_cons, interp]
      · have hz : z_at x (p1 :: p2 :: rest) = z_at x (p2 :: rest) := by
          simp [z_at, h]
        rw [hz, ih]
        unfold bracketSegment
        rw [hseg, List.find?_cons]
        simp [h]

/-- Under non-decreasing x, a query left of the first sample gets no value. -/
theorem z_at_none_before (x : ℚ) (pts : List (ℚ × ℚ))
    (hmono : List.Chain' (fun p q : ℚ × ℚ => p.1 ≤ q.1) pts) :
    ∀ p0 ∈ pts.head?, x < p0.1 → z_at x pts = none := by
  induction pts with
  | nil => intro p0 h; simp at h
  | cons p1 tl ih =>
    intro p0 h hx
    simp only [List.head?_cons, Option.mem_def, Option.some.injEq] at h
    cases tl with
    | nil => rfl
    | cons p2 rest =>
      rw [List.chain'_cons] at hmono
      have hx1 : x < p1.1 := by rw [h]; exact hx
      have hcond : ¬(p1.1 ≤ x ∧ x ≤ p2.1) := by
        intro hc
        exact absurd hc.1 (not_le.2 hx1)
      have hz : z_at x (p1 :: p2 :: rest) = z_at x (p2 :: rest) := by
        simp [z_at, hcond]
      rw [hz]
      exact ih hmono.2 p2 rfl (lt_of_lt_of_le hx1 hmono.1)

/-- Under a non-decreasing chain the head's x never exceeds the last x. -/
theorem chain_head_le_getLast (l : List (ℚ × ℚ))
    (hmono : List.Chain' (fun p q : ℚ × ℚ => p.1 ≤ q.1) l) :
    ∀ p ∈ l.head?, ∀ pn ∈ l.getLast?, p.1 ≤ pn.1 := by
  induction l with
  | nil => intro p h; simp at h
  | cons p1 tl ih =>
    intro p h pn hn
    simp only [List.head?_cons, Option.mem_def, Option.some.injEq] at h
    cases tl with
    | nil =>
      simp only [List.getLast?_singleton, Option.mem_def, Option.some.injEq] at hn
      rw [← h, ← hn]
    | cons p2 rest =>
      rw [List.chain'_cons] at hmono
      rw [List.getLast?_cons_cons] at hn
      have h2 := ih hmono.2 p2 rfl pn hn
      calc p.1 = p1.1 := by rw [← h]
        _ ≤ p2.1 := hmono.1
        _ ≤ pn.1 := h2

/-- Under non-decreasing x, a query right of the last sample gets no value. -/
theorem z_at_none_after (x : ℚ) (pts : List (ℚ × ℚ))
    (hmono : List.Chain' (fun p q : ℚ × ℚ => p.1 ≤ q.1) pts) :
    ∀ pn ∈ pts.getLast?, pn.1 < x → z_at x pts = none := by
  induction pts with
  | nil => intro pn h; simp at h
  | cons p1 tl ih =>
    intro pn hn hx
    cases tl with
    | nil => rfl
    | cons p2 rest =>
      rw [List.chain'_cons] at hmono
      rw [List.getLast?_cons_cons] at hn
      have h2 : p2.1 ≤ pn.1 := chain_head_le_getLast _ hmono.2 p2 rfl pn hn
      have hcond : ¬(p1.1 ≤ x ∧ x ≤ p2.1) := by
        intro hc
        exact absurd hc.2 (not_le.2 (lt_of_le_of_lt h2 hx))
      have hz : z_at x (p1 :: p2 :: rest) = z_at x (p2 :: rest) := by
        simp [z_at, hcond]
      rw [hz]
      exact ih hmono.2 pn hn hx

/-- Every segment of a strictly-increasing polyline has a strictly larger
right x. -/
theorem chain_segments_lt (pts : List (ℚ × ℚ))
    (hmono : List.Chain' (fun p q : ℚ × ℚ => p.1 < q.1) pts) :
    ∀ s ∈ segments pts, s.1.1 < s.2.1 := by
  induction pts with
  | nil => intro s h; simp [segments] at h
  | cons p1 tl ih =>
    intro s h
    cases tl with
    | nil => simp [segments] at h
    | cons p2 rest =>
      rw [List.chain'_cons] at hmono
      have hseg : segments (p1 :: p2 :: rest) = (p1, p2) :: segments (p2 :: rest) := rfl
      rw [hseg, List.mem_cons] at h
      cases h with
      | inl h => rw [h]; exact hmono.1
      | inr h => exact ih hmono.2 s h

/-! ## Claim theorems -/

/-- C1: after the final clamping pass (objects.py lines 720-723) every
produced phreatic control-point list has non-increasing elevations: each
point's elevation is at most the elevation of the point before it.  This
holds for every input list of the clamping pass, hence in particular for
every control list the builder produces. -/
theorem clamp_pass_nonincreasing :
    (∀ l : List (ℚ × ℚ), List.Chain' (fun p q => q.2 ≤ p.2) (clamp_descending l)) ∧
      ∀ (b : BuilderInput) (l : List (ℚ × ℚ)), phreatic_line b = Except.ok l →
        List.Chain' (fun p q => q.2 ≤ p.2) l := by
  have main : ∀ l : List (ℚ × ℚ),
      List.Chain' (fun p q => q.2 ≤ p.2) (clamp_descending l) := by
    intro l
    cases l with
    | nil => simp [clamp_descending]
    | cons p rest =>
      simp only [clamp_descending]
      rw [List.chain'_cons']
      exact ⟨(clamp_go_chain p rest).2, (clamp_go_chain p rest).1⟩
  refine ⟨main, ?_⟩
  intro b l h
  unfold phreatic_line at h
  cases hb : build_final_pl b with
  | error e => rw [hb] at h; cases h
  | ok l0 =>
    rw [hb] at h
    injection h with h
    rw [← h]
    exact main l0

/-- Evaluation of the builder at the example input, used by witnesses. -/
theorem phreatic_line_bExample_eval :
    phreatic_line bExample = Except.ok clampedExample := by
  norm_num [phreatic_line, build_final_pl, seed_points, p1_point, p2_point,
    p3_point, p4_point, bExample, engExample, X_UNDEFINED, Z_OFFSET_BUITENKRUIN,
    Z_PHREATIC_OFFSET_MAAIVELD, xl, xr, resample_xs, sortedDedup, sortAsc,
    insertSorted, List.dedup, resample_fold, resample_point, z_at,
    clamp_descending, clamp_go, clampedExample, crest_error_msg, p2_error_msg]

/-- Witness for C1 at the concrete example input. -/
theorem clamp_pass_nonincreasing_witness :
    List.Chain' (fun p q : ℚ × ℚ => q.2 ≤ p.2) clampedExample :=
  clamp_pass_nonincreasing.2 bExample clampedExample phreatic_line_bExample_eval

/-- C4: on a sample list monotonic in x, `z_at` returns exactly the linear
interpolation over the first segment whose inclusive bounds contain the
query, and returns no value (never an extrapolation) for queries before the
first or after the last sample. -/
theorem z_at_interpolation_contract (pts : List (ℚ × ℚ)) (x : ℚ)
    (hmono : List.Chain' (fun p q : ℚ × ℚ => p.1 ≤ q.1) pts) :
    z_at x pts = (bracketSegment x pts).map (interp x)
    ∧ (∀ p0 ∈ pts.head?, x < p0.1 → z_at x pts = none)
    ∧ (∀ pn ∈ pts.getLast?, pn.1 < x → z_at x pts = none) :=
  ⟨z_at_eq_bracket x pts, z_at_none_before x pts hmono, z_at_none_after x pts hmono⟩

/-- Witness for C4 at a concrete two-point polyline. -/
theorem z_at_interpolation_contract_witness :
    z_at 1 [((0 : ℚ), (0 : ℚ)), (2, 4)]
        = (bracketSegment 1 [((0 : ℚ), (0 : ℚ)), (2, 4)]).map (interp 1)
    ∧ (∀ p0 ∈ ([((0 : ℚ), (0 : ℚ)), (2, 4)]).head?, 1 < p0.1 →
        z_at 1 [((0 : ℚ), (0 : ℚ)), (2, 4)] = none)
    ∧ (∀ pn ∈ ([((0 : ℚ), (0 : ℚ)), (2, 4)]).getLast?, pn.1 < 1 →
        z_at 1 [((0 : ℚ), (0 : ℚ)), (2, 4)] = none) :=
  z_at_interpolation_contract [((0 : ℚ), (0 : ℚ)), (2, 4)] 1
    (by norm_num [List.chain'_cons])

/-- C10: when the x-coordinates are strictly increasing, the divisor
`p2.x - p1.x` of the segment `z_at` selects is strictly positive, so the
division of objects.py line 40 is never by zero — and without that
precondition (two consecutive points with the same x equal to the query) the
selected segment's divisor is zero. -/
theorem z_at_divisor_positive (pts : List (ℚ × ℚ)) (x : ℚ)
    (s : (ℚ × ℚ) × (ℚ × ℚ))
    (hmono : List.Chain' (fun p q : ℚ × ℚ => p.1 < q.1) pts)
    (hsel : bracketSegment x pts = some s) :
    (0 < s.2.1 - s.1.1 ∧ z_at x pts = some (interp x s))
    ∧ (bracketSegment 1 [((1 : ℚ), (5 : ℚ)), (1, 7)]
          = some (((1 : ℚ), (5 : ℚ)), ((1 : ℚ), (7 : ℚ)))
       ∧ (((1 : ℚ), (7 : ℚ)).1 - ((1 : ℚ), (5 : ℚ)).1 : ℚ) = 0) := by
  have hmem : s ∈ segments pts :=
    List.mem_of_find?_eq_some hsel
  have hlt : s.1.1 < s.2.1 := chain_segments_lt pts hmono s hmem
  refine ⟨⟨sub_pos.2 hlt, ?_⟩,
    by norm_num [bracketSegment, segments, List.find?_cons, interp]⟩
  rw [z_at_eq_bracket x pts, hsel]
  rfl

/-- Witness for C10 at a concrete strictly-increasing polyline. -/
theorem z_at_divisor_positive_witness :
    (0 < (((0 : ℚ), (0 : ℚ)), ((2 : ℚ), (4 : ℚ))).2.1
          - (((0 : ℚ), (0 : ℚ)), ((2 : ℚ), (4 : ℚ))).1.1
      ∧ z_at 1 [((0 : ℚ), (0 : ℚ)), (2, 4)]
          = some (interp 1 (((0 : ℚ), (0 : ℚ)), ((2 : ℚ), (4 : ℚ)))))
    ∧ (bracketSegment 1 [((1 : ℚ), (5 : ℚ)), (1, 7)]
          = some (((1 : ℚ), (5 : ℚ)), ((1 : ℚ), (7 : ℚ)))
       ∧ (((1 : ℚ), (7 : ℚ)).1 - ((1 : ℚ), (5 : ℚ)).1 : ℚ) = 0) :=
  z_at_divisor_positive [((0 : ℚ), (0 : ℚ)), (2, 4)] 1
    (((0 : ℚ), (0 : ℚ)), ((2 : ℚ), (4 : ℚ))) (by norm_num [List.chain'_cons])
    (by norm_num [bracketSegment, segments, List.find?_cons])

/-- Membership is preserved by sorted insertion. -/
theorem mem_insertSorted (a x : ℚ) (l : List ℚ) :
    a ∈ insertSorted x l ↔ a = x ∨ a ∈ l := by
  induction l with
  | nil => simp [insertSorted]
  | cons b t ih =>
    by_cases h : x ≤ b
    · simp [insertSorted, h]
    · simp [insertSorted, h, ih]
      tauto

/-- Membership is preserved by the ascending sort. -/
theorem mem_sortAsc (a : ℚ) (l : List ℚ) : a ∈ sortAsc l ↔ a ∈ l := by
  induction l with
  | nil => simp [sortAsc]
  | cons x t ih =>
    simp only [sortAsc, List.foldr_cons] at *
    rw [mem_insertSorted, ih, List.mem_cons]

/-- Membership is preserved by `sortedDedup`. -/
theorem mem_sortedDedup (a : ℚ) (l : List ℚ) : a ∈ sortedDedup l ↔ a ∈ l := by
  rw [sortedDedup, mem_sortAsc, List.mem_dedup]

/-- Every resample position lies in the open-closed interval `(xl, xr]`. -/
theorem mem_resample_xs_interval (b : BuilderInput) (pl : List (ℚ × ℚ)) (x : ℚ)
    (hx : x ∈ resample_xs b pl) : xl b < x ∧ x ≤ xr b := by
  unfold resample_xs at hx
  rw [mem_sortedDedup] at hx
  rcases List.mem_append.1 hx with h | h <;>
  · obtain ⟨p, hp, hpx⟩ := List.mem_map.1 h
    have hf := (List.mem_filter.1 hp).2
    rw [← hpx]
    simpa using hf

/-- The loop body of objects.py lines 708-714 appends exactly
`(x, min z_pl (z_mv - Z_PHREATIC_OFFSET_MAAIVELD))`. -/
theorem resample_point_eq_min (b : BuilderInput) (pl : List (ℚ × ℚ)) (x zpl : ℚ)
    (hz : z_at x pl = some zpl) :
    resample_point b pl x
      = Except.ok (x, min zpl (b.eng.zAt x - Z_PHREATIC_OFFSET_MAAIVELD)) := by
  simp only [resample_point, hz]
  split
  · next h => rw [min_eq_right (le_of_lt h)]
  · next h => rw [min_eq_left (not_lt.1 h)]

/-- The resample loop equals the spec-side resampled list, modulo the
accumulator it started from. -/
theorem resample_fold_spec (b : BuilderInput) (pl : List (ℚ × ℚ)) :
    ∀ (xs : List ℚ) (acc res : List (ℚ × ℚ)),
      resample_fold b pl acc xs = Except.ok res →
      ∃ mid, spec_resampled b pl xs = some mid ∧ res = acc ++ mid := by
  intro xs
  induction xs with
  | nil =>
    intro acc res h
    simp only [resample_fold, Except.ok.injEq] at h
    exact ⟨[], rfl, by simp [h]⟩
  | cons x rest ih =>
    intro acc res h
    rw [resample_fold] at h
    cases hz : z_at x pl with
    | none =>
      rw [show resample_point b pl x = Except.error "TypeError: NoneType comparison"
          by simp [resample_point, hz]] at h
      cases h
    | some zpl =>
      rw [resample_point_eq_min b pl x zpl hz] at h
      obtain ⟨mid, hspec, hres⟩ := ih _ _ h
      refine ⟨(x, min zpl (b.eng.zAt x - Z_PHREATIC_OFFSET_MAAIVELD)) :: mid, ?_, ?_⟩
      · rw [spec_resampled, hz, hspec]
      · rw [hres, List.append_assoc]
        rfl

/-- C2: for every resample position x in `(xl, xr]` the elevation appended to
the final control list is the seed polyline's interpolated elevation at x when
that stays at least `Z_PHREATIC_OFFSET_MAAIVELD` below the ground elevation,
else ground elevation minus the offset — i.e. exactly
`min(seed elevation, ground elevation - offset)`. -/
theorem resample_elevation_min (b : BuilderInput) (pl : List (ℚ × ℚ)) (x zpl : ℚ)
    (hx : x ∈ resample_xs b pl) (hz : z_at x pl = some zpl) :
    (xl b < x ∧ x ≤ xr b)
    ∧ resample_point b pl x
        = Except.ok (x, min zpl (b.eng.zAt x - Z_PHREATIC_OFFSET_MAAIVELD)) :=
  ⟨mem_resample_xs_interval b pl x hx, resample_point_eq_min b pl x zpl hz⟩

/-- Evaluation of the resample positions at the example input. -/
theorem resample_xs_bExample_eval : resample_xs bExample plExample = [6, 10] := by
  norm_num [resample_xs, sortedDedup, sortAsc, insertSorted, xl, xr, bExample,
    engExample, plExample, X_UNDEFINED, List.dedup]

/-- Evaluation of the seed interpolation at the example input. -/
theorem z_at_6_plExample_eval : z_at 6 plExample = some (49/10) := by
  norm_num [z_at, plExample]

/-- Witness for C2 at the concrete example input. -/
theorem resample_elevation_min_witness :
    (xl bExample < 6 ∧ (6 : ℚ) ≤ xr bExample)
    ∧ resample_point bExample plExample 6
        = Except.ok (6, min (49/10)
            (bExample.eng.zAt 6 - Z_PHREATIC_OFFSET_MAAIVELD)) :=
  resample_elevation_min bExample plExample 6 (49/10)
    (by rw [resample_xs_bExample_eval]; simp) z_at_6_plExample_eval

/-- C3: the control list handed to the clamping pass is exactly
[seed points with x ≤ x_binnenkruin] ++ [one resampled point per x of the
sorted de-duplicated union restricted to `(xl, xr]`] ++ (only when
`xr ≠ right_bound`) [seed points with x > xr]. -/
theorem final_control_list_decomposition (b : BuilderInput)
    (pl l : List (ℚ × ℚ))
    (hseed : seed_points b = Except.ok pl)
    (hbuild : build_final_pl b = Except.ok l) :
    spec_control_list b pl = some l := by
  unfold build_final_pl at hbuild
  rw [hseed] at hbuild
  dsimp only at hbuild
  cases hmid : resample_fold b pl
      (pl.filter fun p => decide (p.1 ≤ b.x_binnenkruin)) (resample_xs b pl) with
  | error e => rw [hmid] at hbuild; cases hbuild
  | ok mid =>
    rw [hmid] at hbuild
    dsimp only at hbuild
    obtain ⟨mid', hspec, hres⟩ := resample_fold_spec b pl _ _ _ hmid
    unfold spec_control_list
    rw [hspec]
    dsimp only
    by_cases hxr : xr b ≠ b.eng.right
    · rw [if_pos hxr] at hbuild ⊢
      injection hbuild with hb
      rw [← hb, hres, List.append_assoc]
    · rw [if_neg hxr] at hbuild ⊢
      injection hbuild with hb
      rw [← hb, hres]
      simp

/-- Evaluation of the seed points at the example input. -/
theorem seed_points_bExample_eval : seed_points bExample = Except.ok plExample := by
  norm_num [seed_points, p1_point, p2_point, p3_point, p4_point, bExample,
    engExample, X_UNDEFINED, Z_OFFSET_BUITENKRUIN, Z_PHREATIC_OFFSET_MAAIVELD,
    plExample, crest_error_msg, p2_error_msg]

/-- Evaluation of the pre-clamp control list at the example input. -/
theorem build_final_pl_bExample_eval :
    build_final_pl bExample = Except.ok finalExample := by
  norm_num [build_final_pl, seed_points, p1_point, p2_point, p3_point, p4_point,
    bExample, engExample, X_UNDEFINED, Z_OFFSET_BUITENKRUIN,
    Z_PHREATIC_OFFSET_MAAIVELD, xl, xr, resample_xs, sortedDedup, sortAsc,
    insertSorted, List.dedup, resample_fold, resample_point, z_at, finalExample,
    crest_error_msg, p2_error_msg]

/-- Witness for C3 at the concrete example input. -/
theorem final_control_list_decomposition_witness :
    spec_control_list bExample plExample = some finalExample :=
  final_control_list_decomposition bExample plExample finalExample
    seed_points_bExample_eval build_final_pl_bExample_eval

/-- C5: seed point P3 is `(x_buitenkruin, design_level - Z_OFFSET_BUITENKRUIN)`
and P4 is `(x_binnenkruin, design_level - verschil)`, and (given the engine
reported an intersection for P2) the builder raises the fatal crest error for
the scenario exactly when P3's elevation is strictly below P4's, i.e. when
`verschil < Z_OFFSET_BUITENKRUIN`. -/
theorem p3_p4_seed_and_fatal_iff (b : BuilderInput) (i0 : ℚ × ℚ)
    (h : b.eng.intersections.head? = some i0) :
    p3_point b (p2_point b i0).2 = (b.x_buitenkruin, b.peil - Z_OFFSET_BUITENKRUIN)
    ∧ p4_point b (p2_point b i0).2 = (b.x_binnenkruin, b.peil - b.verschil)
    ∧ (seed_points b = Except.error crest_error_msg
        ↔ (p3_point b (p2_point b i0).2).2 < (p4_point b (p2_point b i0).2).2)
    ∧ ((p3_point b (p2_point b i0).2).2 < (p4_point b (p2_point b i0).2).2
        ↔ b.verschil < Z_OFFSET_BUITENKRUIN) := by
  refine ⟨rfl, rfl, ?_, ?_⟩
  · unfold seed_points
    rw [h]
    dsimp only
    constructor
    · intro he
      by_cases hlt : (p3_point b (p2_point b i0).2).2 < (p4_point b (p2_point b i0).2).2
      · exact hlt
      · rw [if_neg hlt] at he
        cases he
    · intro hlt
      rw [if_pos hlt]
  · show b.peil - Z_OFFSET_BUITENKRUIN < b.peil - b.verschil
      ↔ b.verschil < Z_OFFSET_BUITENKRUIN
    constructor <;> intro hlt <;> linarith

/-- Witness for C5 at the concrete example input. -/
theorem p3_p4_seed_and_fatal_iff_witness :
    p3_point bExample (p2_point bExample (1, 1)).2
        = (bExample.x_buitenkruin, bExample.peil - Z_OFFSET_BUITENKRUIN)
    ∧ p4_point bExample (p2_point bExample (1, 1)).2
        = (bExample.x_binnenkruin, bExample.peil - bExample.verschil)
    ∧ (seed_points bExample = Except.error crest_error_msg
        ↔ (p3_point bExample (p2_point bExample (1, 1)).2).2
            < (p4_point bExample (p2_point bExample (1, 1)).2).2)
    ∧ ((p3_point bExample (p2_point bExample (1, 1)).2).2
            < (p4_point bExample (p2_point bExample (1, 1)).2).2
        ↔ bExample.verschil < Z_OFFSET_BUITENKRUIN) :=
  p3_p4_seed_and_fatal_iff bExample (1, 1) rfl

/-- C7: a failed id lookup inside the `try` block is caught: the error is
logged with the scenario's output name, and the iteration then continues past
the lookup block, running the body on the loop variables as the failed lookup
left them (stale bindings from an earlier iteration); on the never-bound
state of the first scenario the body hits an unbound variable. -/
theorem lookup_failure_logged_and_continues (d : DAMInput)
    (engine : BodyBindings → EngineData) (st : BState) (c : Combination)
    (st' : BState) (e : String) (n : String)
    (h : do_lookups d c st = (st', some e)) :
    batchStep d engine st c
      = (st', Event.logged c.soilgeometry2D_name
            (lookup_log_msg c.soilgeometry2D_name e)
          :: (scenario_body engine c.soilgeometry2D_name st').1,
         (scenario_body engine c.soilgeometry2D_name st').2)
    ∧ scenario_body engine n emptyBState = ([], some "NameError") := by
  constructor
  · unfold batchStep
    rw [h]
    rfl
  · rfl

/-- Witness for C7: a first scenario whose ids resolve in no store. -/
theorem lookup_failure_logged_and_continues_witness :
    batchStep dEmpty engineExample emptyBState combBad
      = (emptyBState, Event.logged "bad"
            (lookup_log_msg "bad" (soilprofile_error_msg "NOPE"))
          :: (scenario_body engineExample "bad" emptyBState).1,
         (scenario_body engineExample "bad" emptyBState).2)
    ∧ scenario_body engineExample "bad" emptyBState = ([], some "NameError") :=
  lookup_failure_logged_and_continues dEmpty engineExample emptyBState combBad
    emptyBState (soilprofile_error_msg "NOPE") "bad" rfl

/-- Evaluation of the example lookups: every id of `combElem1` resolves. -/
theorem do_lookups_example_eval :
    do_lookups dStoreExample combElem1 emptyBState = (stExample, none) := rfl

/-- Evaluation of the example scenario body: P3 ends up below P4 (verschil is
negative), so the builder raises the crest error. -/
theorem scenario_body_example_eval :
    scenario_body engineExample "s1" stExample = ([], some crest_error_msg) := by
  norm_num [scenario_body, stExample, mkBuilderInput, engineExample, engExample,
    build_final_pl, seed_points, p1_point, p2_point, p3_point, p4_point,
    slExample, spExample, X_UNDEFINED, Z_OFFSET_BUITENKRUIN,
    Z_PHREATIC_OFFSET_MAAIVELD, crest_error_msg, p2_error_msg]

/-- C6 counterexample: in the two-scenario batch `[combElem1, combElem2]` the
first scenario violates the P3/P4 geometric precondition; the claim says the
failure is logged and the remaining scenario is still processed, but the run
ends with the uncaught error, emits no logging event at all, and never
produces the second scenario's output. -/
theorem geometric_violation_aborts_batch_cex :
    runBatch dStoreExample engineExample [combElem1, combElem2] emptyBState
      = ([], some crest_error_msg)
    ∧ Event.produced "s2"
        ∉ (runBatch dStoreExample engineExample [combElem1, combElem2]
            emptyBState).1 := by
  have h : runBatch dStoreExample engineExample [combElem1, combElem2] emptyBState
      = ([], some crest_error_msg) := by
    rw [runBatch]
    unfold batchStep
    rw [do_lookups_example_eval]
    dsimp only [combElem1]
    rw [scenario_body_example_eval]
    rfl
  refine ⟨h, ?_⟩
  rw [h]
  simp

/-- C6 amended: when a scenario's lookups succeed but its body raises (as the
geometric precondition violations of objects.py lines 642-656 do), the
exception is uncaught: the whole batch stops with that error, nothing is
logged through `logging.error`, and no remaining scenario is processed. -/
theorem geometric_violation_aborts_whole_batch (d : DAMInput)
    (engine : BodyBindings → EngineData) (st st' : BState) (c : Combination)
    (rest : List Combination) (e : String)
    (h1 : do_lookups d c st = (st', none))
    (h2 : scenario_body engine c.soilgeometry2D_name st' = ([], some e)) :
    runBatch d engine (c :: rest) st = ([], some e) := by
  rw [runBatch]
  unfold batchStep
  rw [h1]
  dsimp only
  rw [h2]
  rfl

/-- Witness for the amended C6 at the concrete example batch. -/
theorem geometric_violation_aborts_whole_batch_witness :
    runBatch dStoreExample engineExample [combElem1, combElem2] emptyBState
      = ([], some crest_error_msg) :=
  geometric_violation_aborts_whole_batch dStoreExample engineExample
    emptyBState stExample combElem1 [combElem2] crest_error_msg
    do_lookups_example_eval scenario_body_example_eval

set_option maxRecDepth 4000 in
/-- C8 (documents the code bug): six of the seven lookups raise a message
containing both the queried id and the kind of record, but
`get_slope_layer`'s message (objects.py line 446) interpolates the Python
builtin `id` instead of its `surfaceline_id` parameter, so the queried id
"SL1" never appears in it. -/
theorem lookup_error_message_contents :
    (get_slope_layer dEmpty "SL1" = Except.error slopelayer_error_msg
      ∧ ¬ ("SL1".toList <:+: slopelayer_error_msg.toList))
    ∧ (get_soilprofile dEmpty "SL1" = Except.error (soilprofile_error_msg "SL1")
      ∧ "SL1".toList <:+: (soilprofile_error_msg "SL1").toList)
    ∧ (get_surfaceline dEmpty "SL1" = Except.error (surfaceline_error_msg "SL1")
      ∧ "SL1".toList <:+: (surfaceline_error_msg "SL1").toList)
    ∧ (get_location dEmpty "SL1" = Except.error (location_error_msg "SL1")
      ∧ "SL1".toList <:+: (location_error_msg "SL1").toList)
    ∧ (get_polderpeilen dEmpty "L1" = Except.error (polderpeil_error_msg "L1")
      ∧ "L1".toList <:+: (polderpeil_error_msg "L1").toList)
    ∧ (get_toetspeilen dEmpty "L1" = Except.error (toetspeil_error_msg "L1")
      ∧ "L1".toList <:+: (toetspeil_error_msg "L1").toList)
    ∧ (get_stijghoogte dEmpty "L1" = Except.error (stijghoogte_error_msg "L1")
      ∧ "L1".toList <:+: (stijghoogte_error_msg "L1").toList) := by
  refine ⟨⟨rfl, by decide⟩, ⟨rfl, by decide⟩, ⟨rfl, by decide⟩, ⟨rfl, by decide⟩,
    ⟨rfl, by decide⟩, ⟨rfl, by decide⟩, ⟨rfl, by decide⟩⟩

/-- Differencing only when the mask is hit never grows the area. -/
theorem area_ite_le {P : Type} (ops : PolygonOps P) (pg mask : P) (b : Bool) :
    ops.area (if b then ops.difference pg mask else pg) ≤ ops.area pg := by
  cases b
  · exact le_refl _
  · exact ops.area_diff_le pg mask

/-- The three-mask clip of objects.py lines 763-770 never grows the area. -/
theorem limit_polygon_area_le {P : Type} (ops : PolygonOps P) (m : Masks P)
    (pg : P) : ops.area (limit_polygon ops m pg) ≤ ops.area pg := by
  unfold limit_polygon
  refine le_trans (area_ite_le ops _ m.bottom_subtract _)
    (le_trans (area_ite_le ops _ m.right_subtract _)
      (area_ite_le ops pg m.left_subtract _))

/-- A polygon that intersects none of the three masks is left unchanged by
the clip. -/
theorem limit_polygon_id {P : Type} (ops : PolygonOps P) (m : Masks P) (pg : P)
    (h1 : ops.intersects pg m.left_subtract = false)
    (h2 : ops.intersects pg m.right_subtract = false)
    (h3 : ops.intersects pg m.bottom_subtract = false) :
    limit_polygon ops m pg = pg := by
  unfold limit_polygon
  simp [h1, h2, h3]

/-- Unfolding of the accumulation fold of objects.py lines 759-772: starting
from arbitrary totals, each final total is the start total plus the sum of
the per-polygon contributions of the matching code. -/
theorem accumulate_foldl_spec {P : Type} (ops : PolygonOps P) (m : Masks P)
    (code : String) :
    ∀ (polys : List (SoilPolygonRec P)) (fg : (String → ℚ) × (String → ℚ)),
      ((polys.foldl
          (fun acc spg =>
            (Function.update acc.1 spg.soilcode (acc.1 spg.soilcode + ops.area spg.poly),
             Function.update acc.2 spg.soilcode
               (acc.2 spg.soilcode + ops.area (limit_polygon ops m spg.poly))))
          fg).1 code
        = fg.1 code + ((polys.filter (fun s => s.soilcode == code)).map
            (fun s => ops.area s.poly)).sum)
      ∧ ((polys.foldl
          (fun acc spg =>
            (Function.update acc.1 spg.soilcode (acc.1 spg.soilcode + ops.area spg.poly),
             Function.update acc.2 spg.soilcode
               (acc.2 spg.soilcode + ops.area (limit_polygon ops m spg.poly))))
          fg).2 code
        = fg.2 code + ((polys.filter (fun s => s.soilcode == code)).map
            (fun s => ops.area (limit_polygon ops m s.poly))).sum) := by
  intro polys
  induction polys with
  | nil => intro fg; simp
  | cons spg t ih =>
    intro fg
    rw [List.foldl_cons]
    have ih' := ih
      (Function.update fg.1 spg.soilcode (fg.1 spg.soilcode + ops.area spg.poly),
       Function.update fg.2 spg.soilcode
         (fg.2 spg.soilcode + ops.area (limit_polygon ops m spg.poly)))
    by_cases h : spg.soilcode = code
    · have hbeq : (spg.soilcode == code) = true := by
        rw [beq_iff_eq]; exact h
      rw [List.filter_cons, hbeq, if_pos rfl]
      constructor
      · rw [ih'.1]
        dsimp only
        rw [← h, Function.update_same, List.map_cons, List.sum_cons]
        ring
      · rw [ih'.2]
        dsimp only
        rw [← h, Function.update_same, List.map_cons, List.sum_cons]
        ring
    · have hbeq : (spg.soilcode == code) = false := by
        rw [beq_eq_false_iff_ne]; exact h
      rw [List.filter_cons, hbeq, if_neg Bool.false_ne_true]
      constructor
      · rw [ih'.1]
        dsimp only
        rw [Function.update_noteq (fun hc => h hc.symm)]
      · rw [ih'.2]
        dsimp only
        rw [Function.update_noteq (fun hc => h hc.symm)]

/-- C9: the raw total per soil code equals the sum of the areas of the
polygons carrying that code (0 for codes with no polygons), the
footprint-limited total never exceeds the raw total, and the two are equal
when no polygon of that code intersects any of the three subtraction masks. -/
theorem area_accounting_conservation {P : Type} (ops : PolygonOps P)
    (m : Masks P) (polys : List (SoilPolygonRec P)) (code : String) :
    (accumulate_areas ops m polys).1 code
        = ((polys.filter (fun s => s.soilcode == code)).map
            (fun s => ops.area s.poly)).sum
    ∧ (accumulate_areas ops m polys).2 code
        ≤ (accumulate_areas ops m polys).1 code
    ∧ ((∀ spg ∈ polys, spg.soilcode = code →
          ops.intersects spg.poly m.left_subtract = false
          ∧ ops.intersects spg.poly m.right_subtract = false
          ∧ ops.intersects spg.poly m.bottom_subtract = false) →
        (accumulate_areas ops m polys).2 code
          = (accumulate_areas ops m polys).1 code) := by
  have hacc := accumulate_foldl_spec ops m code polys (fun _ => 0, fun _ => 0)
  have h1 : (accumulate_areas ops m polys).1 code
      = ((polys.filter (fun s => s.soilcode == code)).map
          (fun s => ops.area s.poly)).sum := by
    unfold accumulate_areas
    rw [hacc.1]
    simp
  have h2 : (accumulate_areas ops m polys).2 code
      = ((polys.filter (fun s => s.soilcode == code)).map
          (fun s => ops.area (limit_polygon ops m s.poly))).sum := by
    unfold accumulate_areas
    rw [hacc.2]
    simp
  refine ⟨h1, ?_, ?_⟩
  · rw [h1, h2]
    exact List.sum_le_sum (fun s _ => limit_polygon_area_le ops m s.poly)
  · intro hno
    rw [h1, h2]
    refine congrArg List.sum (List.map_congr_left ?_)
    intro s hs
    have hmem := (List.mem_filter.1 hs).1
    have hcode : s.soilcode = code := by
      have := (List.mem_filter.1 hs).2
      rwa [beq_iff_eq] at this
    obtain ⟨ha, hb, hc⟩ := hno s hmem hcode
    rw [limit_polygon_id ops m s.poly ha hb hc]

/-- A trivial concrete polygon model used by the C9 witness. -/
def unitOps : PolygonOps Unit :=
  ⟨fun _ => 0, fun _ _ => false, fun _ _ => (), fun _ _ => le_refl 0⟩

/-- Trivial concrete masks used by the C9 witness. -/
def unitMasks : Masks Unit :=
  ⟨(), (), ()⟩

/-- Witness for C9 at a concrete one-polygon instance. -/
theorem area_accounting_conservation_witness :
    (accumulate_areas unitOps unitMasks [⟨"Klei", ()⟩]).1 "Klei"
        = ((([⟨"Klei", ()⟩] : List (SoilPolygonRec Unit)).filter
            (fun s => s.soilcode == "Klei")).map
            (fun s => unitOps.area s.poly)).sum
    ∧ (accumulate_areas unitOps unitMasks [⟨"Klei", ()⟩]).2 "Klei"
        ≤ (accumulate_areas unitOps unitMasks [⟨"Klei", ()⟩]).1 "Klei"
    ∧ ((∀ spg ∈ ([⟨"Klei", ()⟩] : List (SoilPolygonRec Unit)),
          spg.soilcode = "Klei" →
          unitOps.intersects spg.poly unitMasks.left_subtract = false
          ∧ unitOps.intersects spg.poly unitMasks.right_subtract = false
          ∧ unitOps.intersects spg.poly unitMasks.bottom_subtract = false) →
        (accumulate_areas unitOps unitMasks [⟨"Klei", ()⟩]).2 "Klei"
          = (accumulate_areas unitOps unitMasks [⟨"Klei", ()⟩]).1 "Klei") :=
  area_accounting_conservation unitOps unitMasks [⟨"Klei", ()⟩] "Klei"

end Dam2Stix
